import Mathlib

/-
Shallow embedding of the egui-sdl3 painter (`src/lib.rs`).

Conventions of the embedding:
* `f32` values coming from SDL events / egui geometry are modelled as `ℚ`
  (their arithmetic here — clamping, division by constants — is exact);
  the single transcendental value produced by the code (the wheel zoom
  factor `f32::exp`) is modelled as a real number via `Real.exp`.
* Raw pointers (`*mut SDL_Texture`, `*mut SDL_Cursor`) are modelled as `ℕ`,
  with `0` playing the role of the null pointer.
* Calls into SDL are recorded as explicit effect values, in program order.
* The opaque egui context (`egui::Context`) is modelled as oracle inputs:
  the boolean queries and the screen rect consulted by `handle_event`, and
  the full-output / tessellation data consumed by `end_pass`.
* `SDL_CreateTexture` allocation is modelled by threading a fresh-handle
  counter through `draw`.
-/

namespace EguiSdl

/-! ### Geometry (egui::Pos2 / egui::Rect) -/

structure Pos2 where
  x : ℚ
  y : ℚ
deriving DecidableEq

structure Rect where
  min : Pos2
  max : Pos2
deriving DecidableEq

def Rect.from_min_size (mn : Pos2) (size : Pos2) : Rect :=
  ⟨mn, ⟨mn.x + size.x, mn.y + size.y⟩⟩

/-- `f32::clamp` from Rust: assumes `lo ≤ hi` (Rust panics otherwise). -/
def clampQ (v lo hi : ℚ) : ℚ :=
  if v < lo then lo else if v > hi then hi else v

/-! ### Keys, modifiers, buttons (egui side) -/

inductive Key
  | ArrowLeft | ArrowUp | ArrowRight | ArrowDown
  | Escape | Tab | Backspace | Space | Enter
  | Insert | Home | Delete | End | PageDown | PageUp
  | Num0 | Num1 | Num2 | Num3 | Num4 | Num5 | Num6 | Num7 | Num8 | Num9
  | A | B | C | D | E | F | G | H | I | J | K | L | M
  | N | O | P | Q | R | S | T | U | V | W | X | Y | Z
deriving DecidableEq

structure Modifiers where
  alt : Bool
  ctrl : Bool
  shift : Bool
  mac_cmd : Bool
  command : Bool
deriving DecidableEq

def Modifiers.default : Modifiers :=
  { alt := false, ctrl := false, shift := false, mac_cmd := false, command := false }

inductive PointerButton
  | Primary | Secondary | Middle
deriving DecidableEq

/-! ### egui events accumulated into RawInput -/

inductive Event
  | pointerButton (pos : Pos2) (button : PointerButton) (pressed : Bool) (modifiers : Modifiers)
  | pointerMoved (pos : Pos2)
  | zoom (factor : ℝ)
  | copy
  | cut
  | text (s : String)
  | key (k : Key) (physical_key : Option Key) (pressed : Bool) (repeated : Bool)
      (modifiers : Modifiers)

structure RawInput where
  screen_rect : Option Rect
  events : List Event
  modifiers : Modifiers
  time : Option ℚ
  focused : Bool

/-! ### Cursors -/

inductive SystemCursor
  | DEFAULT | TEXT | WAIT | CROSSHAIR | PROGRESS
  | NWSE_RESIZE | NESW_RESIZE | EW_RESIZE | NS_RESIZE
  | MOVE | NOT_ALLOWED | POINTER
  | NW_RESIZE | N_RESIZE | NE_RESIZE | E_RESIZE
  | SE_RESIZE | S_RESIZE | SW_RESIZE | W_RESIZE
deriving DecidableEq

inductive CursorIcon
  | Default | None | ContextMenu | Help | PointingHand | Progress | Wait
  | Cell | Crosshair | Text | VerticalText | Alias | Copy | Move
  | NoDrop | NotAllowed | Grab | Grabbing | AllScroll
  | ResizeHorizontal | ResizeNeSw | ResizeNwSe | ResizeVertical
  | ResizeEast | ResizeSouthEast | ResizeSouth | ResizeSouthWest
  | ResizeWest | ResizeNorthWest | ResizeNorth | ResizeNorthEast
  | ResizeColumn | ResizeRow | ZoomIn | ZoomOut
deriving DecidableEq

/-- `struct Cursor { ptr: *mut SDL_Cursor, looks: SDL_SystemCursor }` -/
structure Cursor where
  ptr : ℕ
  looks : SystemCursor
deriving DecidableEq

/-- `Cursor::new`: `raw` is the pointer `SDL_CreateSystemCursor` returned;
a null (0) pointer is the error case (`Err(SDL_GetError())` in the source). -/
def Cursor.new (raw : ℕ) (looks : SystemCursor) : Option Cursor :=
  if raw = 0 then none else some { ptr := raw, looks := looks }

/-! ### Textures -/

/-- Opaque egui `TextureId`. -/
abbrev TexId := ℕ

/-- Native texture pointer (`*mut SDL_Texture`), 0 = null. -/
abbrev Handle := ℕ

structure Color32 where
  r : ℕ
  g : ℕ
  b : ℕ
  a : ℕ
deriving DecidableEq

structure ColorImage where
  width : ℕ
  height : ℕ
  pixels : List Color32
deriving DecidableEq

/-- `egui::epaint::ImageDelta`; the only image variant the code handles is
`ImageData::Color`. -/
structure ImageDelta where
  image : ColorImage
  pos : Option (ℕ × ℕ)
deriving DecidableEq

structure TexturesDelta where
  set : List (TexId × ImageDelta)
  free : List TexId
deriving DecidableEq

/-! ### Draw primitives -/

structure Vertex where
  pos : Pos2
  uv : Pos2
  color : Color32
deriving DecidableEq

structure Mesh where
  vertices : List Vertex
  indices : List ℕ
  texture_id : TexId
deriving DecidableEq

inductive Primitive
  | mesh (m : Mesh)
  | callback
deriving DecidableEq

structure ClippedPrimitive where
  clip_rect : Rect
  primitive : Primitive
deriving DecidableEq

structure DrawInfo where
  textures : TexturesDelta
  primitives : List ClippedPrimitive
deriving DecidableEq

/-- `SDL_Vertex` produced by the mesh conversion loop. -/
structure SDLVertex where
  px : ℚ
  py : ℚ
  cr : ℚ
  cg : ℚ
  cb : ℚ
  ca : ℚ
  u : ℚ
  v : ℚ
deriving DecidableEq

/-! ### The Painter state -/

structure Painter where
  cursor : Cursor
  cursor_pos : Pos2
  modifiers : Modifiers
  raw_input : RawInput
  sdl_textures : List (TexId × Handle)
  draw_info : Option DrawInfo

/-! ### SDL-side oracles -/

/-- Live keyboard modifier state returned by `SDL_GetModState`. -/
structure ModState where
  lshift : Bool
  rshift : Bool
  lctrl : Bool
  rctrl : Bool
  lalt : Bool
  ralt : Bool
deriving DecidableEq

/-- Opaque egui context queries consulted by `handle_event`. -/
structure Ctx where
  is_pointer_over_area : Bool
  wants_pointer_input : Bool
  wants_keyboard_input : Bool
  screen_rect : Rect
deriving DecidableEq

/-- SDL global state consulted by `handle_event`:
live modifiers and the clipboard.  `clipboard = none` models
`SDL_HasClipboardText() = false`; `some none` models clipboard text that is
not valid UTF-8 (`CStr::to_str` fails); `some (some s)` is valid text. -/
structure Sdl where
  mod_state : ModState
  clipboard : Option (Option String)

/-! ### SDL events -/

/-- The event payloads `handle_event` reads out of the `SDL_Event` union. -/
inductive SDLEvent
  | windowResized (data1 data2 : ℤ)
  | windowPixelSizeChanged (data1 data2 : ℤ)
  | mouseButtonDown (button : ℤ)
  | mouseButtonUp (button : ℤ)
  | mouseMotion (x y : ℚ)
  | mouseWheel (x y : ℚ)
  | keyDown (key : ℕ)
  | keyUp (key : ℕ)
  | textInput (text : Option String)
  | other

/-! ### SDL keycodes (numeric values from sdl3-sys) -/

def SDLK_UNKNOWN : ℕ := 0
def SDLK_BACKSPACE : ℕ := 8
def SDLK_TAB : ℕ := 9
def SDLK_RETURN : ℕ := 13
def SDLK_ESCAPE : ℕ := 27
def SDLK_SPACE : ℕ := 32
def SDLK_0 : ℕ := 48
def SDLK_1 : ℕ := 49
def SDLK_2 : ℕ := 50
def SDLK_3 : ℕ := 51
def SDLK_4 : ℕ := 52
def SDLK_5 : ℕ := 53
def SDLK_6 : ℕ := 54
def SDLK_7 : ℕ := 55
def SDLK_8 : ℕ := 56
def SDLK_9 : ℕ := 57
def SDLK_A : ℕ := 97
def SDLK_B : ℕ := 98
def SDLK_C : ℕ := 99
def SDLK_D : ℕ := 100
def SDLK_E : ℕ := 101
def SDLK_F : ℕ := 102
def SDLK_G : ℕ := 103
def SDLK_H : ℕ := 104
def SDLK_I : ℕ := 105
def SDLK_J : ℕ := 106
def SDLK_K : ℕ := 107
def SDLK_L : ℕ := 108
def SDLK_M : ℕ := 109
def SDLK_N : ℕ := 110
def SDLK_O : ℕ := 111
def SDLK_P : ℕ := 112
def SDLK_Q : ℕ := 113
def SDLK_R : ℕ := 114
def SDLK_S : ℕ := 115
def SDLK_T : ℕ := 116
def SDLK_U : ℕ := 117
def SDLK_V : ℕ := 118
def SDLK_W : ℕ := 119
def SDLK_X : ℕ := 120
def SDLK_Y : ℕ := 121
def SDLK_Z : ℕ := 122
def SDLK_DELETE : ℕ := 127
def SDLK_INSERT : ℕ := 0x40000049
def SDLK_HOME : ℕ := 0x4000004a
def SDLK_PAGEUP : ℕ := 0x4000004b
def SDLK_END : ℕ := 0x4000004d
def SDLK_PAGEDOWN : ℕ := 0x4000004e
def SDLK_RIGHT : ℕ := 0x4000004f
def SDLK_LEFT : ℕ := 0x40000050
def SDLK_DOWN : ℕ := 0x40000051
def SDLK_UP : ℕ := 0x40000052
def SDLK_KP_1 : ℕ := 0x40000059
def SDLK_KP_2 : ℕ := 0x4000005a
def SDLK_KP_3 : ℕ := 0x4000005b
def SDLK_KP_4 : ℕ := 0x4000005c
def SDLK_KP_5 : ℕ := 0x4000005d
def SDLK_KP_6 : ℕ := 0x4000005e
def SDLK_KP_7 : ℕ := 0x4000005f
def SDLK_KP_8 : ℕ := 0x40000060
def SDLK_KP_9 : ℕ := 0x40000061
def SDLK_KP_0 : ℕ := 0x40000062

/-- `fn sdl_key_to_egui(key: SDL_Keycode) -> Option<egui::Key>` -/
def sdl_key_to_egui (key : ℕ) : Option Key :=
  if key = SDLK_LEFT then some Key.ArrowLeft
  else if key = SDLK_UP then some Key.ArrowUp
  else if key = SDLK_RIGHT then some Key.ArrowRight
  else if key = SDLK_DOWN then some Key.ArrowDown
  else if key = SDLK_ESCAPE then some Key.Escape
  else if key = SDLK_TAB then some Key.Tab
  else if key = SDLK_BACKSPACE then some Key.Backspace
  else if key = SDLK_SPACE then some Key.Space
  else if key = SDLK_RETURN then some Key.Enter
  else if key = SDLK_INSERT then some Key.Insert
  else if key = SDLK_HOME then some Key.Home
  else if key = SDLK_DELETE then some Key.Delete
  else if key = SDLK_END then some Key.End
  else if key = SDLK_PAGEDOWN then some Key.PageDown
  else if key = SDLK_PAGEUP then some Key.PageUp
  else if key = SDLK_KP_0 ∨ key = SDLK_0 then some Key.Num0
  else if key = SDLK_KP_1 ∨ key = SDLK_1 then some Key.Num1
  else if key = SDLK_KP_2 ∨ key = SDLK_2 then some Key.Num2
  else if key = SDLK_KP_3 ∨ key = SDLK_3 then some Key.Num3
  else if key = SDLK_KP_4 ∨ key = SDLK_4 then some Key.Num4
  else if key = SDLK_KP_5 ∨ key = SDLK_5 then some Key.Num5
  else if key = SDLK_KP_6 ∨ key = SDLK_6 then some Key.Num6
  else if key = SDLK_KP_7 ∨ key = SDLK_7 then some Key.Num7
  else if key = SDLK_KP_8 ∨ key = SDLK_8 then some Key.Num8
  else if key = SDLK_KP_9 ∨ key = SDLK_9 then some Key.Num9
  else if key = SDLK_A then some Key.A
  else if key = SDLK_B then some Key.B
  else if key = SDLK_C then some Key.C
  else if key = SDLK_D then some Key.D
  else if key = SDLK_E then some Key.E
  else if key = SDLK_F then some Key.F
  else if key = SDLK_G then some Key.G
  else if key = SDLK_H then some Key.H
  else if key = SDLK_I then some Key.I
  else if key = SDLK_J then some Key.J
  else if key = SDLK_K then some Key.K
  else if key = SDLK_L then some Key.L
  else if key = SDLK_M then some Key.M
  else if key = SDLK_N then some Key.N
  else if key = SDLK_O then some Key.O
  else if key = SDLK_P then some Key.P
  else if key = SDLK_Q then some Key.Q
  else if key = SDLK_R then some Key.R
  else if key = SDLK_S then some Key.S
  else if key = SDLK_T then some Key.T
  else if key = SDLK_U then some Key.U
  else if key = SDLK_V then some Key.V
  else if key = SDLK_W then some Key.W
  else if key = SDLK_X then some Key.X
  else if key = SDLK_Y then some Key.Y
  else if key = SDLK_Z then some Key.Z
  else none

/-- `fn get_modifiers() -> egui::Modifiers` (from the live mod state). -/
def get_modifiers (m : ModState) : Modifiers :=
  let alt := m.lalt || m.ralt
  let shift := m.lshift || m.rshift
  let ctrl := m.lctrl || m.rctrl
  { alt := alt, ctrl := ctrl, shift := shift, mac_cmd := false, command := ctrl }

/-! ### handle_event -/

/-- Side effects `handle_event` performs against SDL. -/
inductive HEffect
  | startTextInput
  | stopTextInput
  | freeClipboard
deriving DecidableEq

def SDL_BUTTON_LEFT : ℤ := 1
def SDL_BUTTON_MIDDLE : ℤ := 2
def SDL_BUTTON_RIGHT : ℤ := 3

/-- `Painter::handle_event`.  Returns the updated painter, the `handled`
flag, and the SDL calls made. -/
noncomputable def Painter.handle_event (p : Painter) (event : SDLEvent) (ctx : Ctx)
    (sdl : Sdl) : Painter × Bool × List HEffect :=
  match event with
  | .windowResized d1 d2 =>
      ({ p with raw_input := { p.raw_input with
           screen_rect := some (Rect.from_min_size ⟨0, 0⟩ ⟨(d1 : ℚ), (d2 : ℚ)⟩) } },
       false, [])
  | .windowPixelSizeChanged d1 d2 =>
      ({ p with raw_input := { p.raw_input with
           screen_rect := some (Rect.from_min_size ⟨0, 0⟩ ⟨(d1 : ℚ), (d2 : ℚ)⟩) } },
       false, [])
  | .mouseButtonDown button =>
      if ctx.is_pointer_over_area || ctx.wants_pointer_input || ctx.wants_keyboard_input then
        let handled := ctx.is_pointer_over_area
        let btn : Option PointerButton :=
          if button = SDL_BUTTON_LEFT then some PointerButton.Primary
          else if button = SDL_BUTTON_MIDDLE then some PointerButton.Middle
          else if button = SDL_BUTTON_RIGHT then some PointerButton.Secondary
          else none
        match btn with
        | some b =>
            ({ p with raw_input := { p.raw_input with
                 events := p.raw_input.events ++
                   [Event.pointerButton p.cursor_pos b true p.modifiers] } },
             handled, [])
        | none => (p, handled, [])
      else (p, false, [])
  | .mouseButtonUp button =>
      if ctx.wants_pointer_input then
        let btn : Option PointerButton :=
          if button = SDL_BUTTON_LEFT then some PointerButton.Primary
          else if button = SDL_BUTTON_MIDDLE then some PointerButton.Middle
          else if button = SDL_BUTTON_RIGHT then some PointerButton.Secondary
          else none
        match btn with
        | some b =>
            ({ p with raw_input := { p.raw_input with
                 events := p.raw_input.events ++
                   [Event.pointerButton p.cursor_pos b false p.modifiers] } },
             true, [])
        | none => (p, true, [])
      else (p, false, [])
  | .mouseMotion mx my =>
      let sr := ctx.screen_rect
      let cp : Pos2 := ⟨clampQ mx sr.min.x (sr.max.x - 1), clampQ my sr.min.y (sr.max.y - 1)⟩
      ({ p with
           cursor_pos := cp,
           raw_input := { p.raw_input with
             events := p.raw_input.events ++ [Event.pointerMoved cp] } },
       false, [])
  | .mouseWheel _wx wy =>
      if ctx.wants_pointer_input then
        let left_ctrl := sdl.mod_state.lctrl
        let right_ctrl := sdl.mod_state.rctrl
        if left_ctrl || right_ctrl then
          ({ p with raw_input := { p.raw_input with
               events := p.raw_input.events ++ [Event.zoom (Real.exp ((wy : ℝ) / 125))] } },
           true, [])
        else (p, true, [])
      else (p, false, [])
  | .keyDown keycode =>
      if ctx.wants_keyboard_input then
        if keycode ≠ SDLK_UNKNOWN then
          match sdl_key_to_egui keycode with
          | some key =>
              let mods := get_modifiers sdl.mod_state
              let cmd : List Event × List HEffect :=
                if mods.command then
                  match key with
                  | Key.C => ([Event.copy], [])
                  | Key.X => ([Event.cut], [])
                  | Key.V =>
                      match sdl.clipboard with
                      | some (some s) => ([Event.text s], [HEffect.freeClipboard])
                      | some none => ([], [HEffect.freeClipboard])
                      | none => ([], [])
                  | _ => ([], [])
                else ([], [])
              ({ p with
                   modifiers := mods,
                   raw_input := { p.raw_input with
                     modifiers := mods,
                     focused := true,
                     events := p.raw_input.events ++ cmd.1 ++
                       [Event.key key (some key) true false mods] } },
               true, cmd.2 ++ [HEffect.startTextInput])
          | none => (p, false, [])
        else (p, false, [])
      else (p, false, [])
  | .keyUp keycode =>
      if ctx.wants_keyboard_input then
        if keycode = SDLK_UNKNOWN then (p, false, [])
        else if keycode = SDLK_ESCAPE then (p, false, [HEffect.stopTextInput])
        else
          match sdl_key_to_egui keycode with
          | some key =>
              let mods := get_modifiers sdl.mod_state
              ({ p with
                   modifiers := mods,
                   raw_input := { p.raw_input with
                     modifiers := mods,
                     events := p.raw_input.events ++
                       [Event.key key (some key) false false mods] } },
               true, [])
          | none => (p, false, [])
      else (p, false, [])
  | .textInput t =>
      if ctx.wants_keyboard_input then
        let mods := get_modifiers sdl.mod_state
        match t with
        | some s =>
            ({ p with
                 modifiers := mods,
                 raw_input := { p.raw_input with
                   modifiers := mods,
                   events := p.raw_input.events ++ [Event.text s] } },
             true, [])
        | none =>
            ({ p with
                 modifiers := mods,
                 raw_input := { p.raw_input with modifiers := mods } },
             false, [])
      else (p, false, [])
  | .other => (p, false, [])

/-! ### Painter construction -/

/-- `Painter::new`.  `screen_size` is the logical window size
(`SDL_GetWindowSize`), `screen_pixels` the physical size
(`SDL_GetWindowSizeInPixels`); `cursor_ptr` is the pointer returned by
`SDL_CreateSystemCursor` for the default cursor (`.expect` in the source
assumes it succeeded).  Returns the painter together with the
pixels-per-point value passed to `ctx.set_pixels_per_point`. -/
def Painter.new (screen_size : ℤ × ℤ) (screen_pixels : ℤ × ℤ) (cursor_ptr : ℕ) :
    Painter × ℚ :=
  let pixels_per_point : ℚ := (screen_pixels.1 : ℚ) / (screen_pixels.1 : ℚ)
  ({ cursor := { ptr := cursor_ptr, looks := SystemCursor.DEFAULT },
     cursor_pos := ⟨0, 0⟩,
     modifiers := Modifiers.default,
     raw_input :=
       { screen_rect := some (Rect.from_min_size ⟨0, 0⟩
           ⟨(screen_size.1 : ℚ), (screen_size.2 : ℚ)⟩),
         events := [],
         modifiers := Modifiers.default,
         time := none,
         focused := false },
     sdl_textures := [],
     draw_info := none },
   pixels_per_point)

/-- `Painter::update_time`. -/
def Painter.update_time (p : Painter) (duration : ℚ) : Painter :=
  { p with raw_input := { p.raw_input with time := some duration } }

/-- A concrete painter as built at startup (800×600 window, handle 1 for the
default cursor). -/
def initialPainter : Painter :=
  (Painter.new (800, 600) (800, 600) 1).1

/-! ### Native calls recorded by end_pass and draw -/

inductive Effect
  | setClipboardText (s : String)
  | logClipboardError
  | createCursor (looks : SystemCursor)
  | destroyCursor (ptr : ℕ)
  | setCursor (ptr : ℕ)
  | logCursorError
  | getRenderScale
  | setRenderScale (x y : ℚ)
  | createTexture (handle : Handle) (w h : ℕ)
  | updateTexture (handle : Handle) (rect : Option (ℤ × ℤ × ℤ × ℤ))
      (pixels : List ℕ) (pitch : ℕ)
  | destroyTexture (handle : Handle)
  | setRenderClipRect (x y w h : ℤ)
  | renderGeometry (texture : Handle) (vertices : List SDLVertex) (indices : List ℤ)
  | unimplementedCallback
deriving DecidableEq

/-! ### Texture cache operations (HashMap<TextureId, *mut SDL_Texture>) -/

/-- `HashMap::get(&id).cloned()` as first-match association-list lookup. -/
def lookupTex : List (TexId × Handle) → TexId → Option Handle
  | [], _ => none
  | e :: rest, id => if e.1 = id then some e.2 else lookupTex rest id

/-- `HashMap::remove(&id)`: drop every entry with the given key. -/
def removeTex : List (TexId × Handle) → TexId → List (TexId × Handle)
  | [], _ => []
  | e :: rest, id => if e.1 = id then removeTex rest id else e :: removeTex rest id

/-- `HashMap::insert(id, t)`: replace any existing entry for the key. -/
def insertTex (c : List (TexId × Handle)) (id : TexId) (t : Handle) :
    List (TexId × Handle) :=
  removeTex c id ++ [(id, t)]

/-- The per-pixel flattening `[r, g, b, a]` of the image into a byte buffer. -/
def bytesOf (img : ColorImage) : List ℕ :=
  img.pixels.foldr (fun c acc => c.r :: c.g :: c.b :: c.a :: acc) []

/-- The `SDL_UpdateTexture` call issued for one image delta (partial if
`pos` is present, full otherwise); `tex` is the handle passed in. -/
def updateEffect (tex : Handle) (imd : ImageDelta) : Effect :=
  match imd.pos with
  | some (px, py) =>
      Effect.updateTexture tex
        (some ((px : ℤ), (py : ℤ),
          (imd.image.width : ℤ) - (px : ℤ), (imd.image.height : ℤ) - (py : ℤ)))
        (bytesOf imd.image) (imd.image.width * 4)
  | none =>
      Effect.updateTexture tex none (bytesOf imd.image) (imd.image.width * 4)

/-- The `for (id, image_delta) in textures.set` loop of `Painter::draw`:
reuse the cached handle, or create a fresh texture (`fresh` is the next
handle `SDL_CreateTexture` returns), update the pixels, and store the
handle back into the cache. -/
def applySets : List (TexId × Handle) → ℕ → List (TexId × ImageDelta) →
    List (TexId × Handle) × ℕ × List Effect
  | c, fresh, [] => (c, fresh, [])
  | c, fresh, (id, imd) :: rest =>
      match lookupTex c id with
      | some t =>
          let r := applySets (insertTex c id t) fresh rest
          (r.1, r.2.1, updateEffect t imd :: r.2.2)
      | none =>
          let r := applySets (insertTex c id fresh) (fresh + 1) rest
          (r.1, r.2.1,
            Effect.createTexture fresh imd.image.width imd.image.height ::
              updateEffect fresh imd :: r.2.2)

/-- The `for id in textures.free` loop of `Painter::draw`: destroy the
cached handle if present, then remove the mapping. -/
def applyFrees : List (TexId × Handle) → List TexId →
    List (TexId × Handle) × List Effect
  | c, [] => (c, [])
  | c, id :: rest =>
      let de : List Effect :=
        match lookupTex c id with
        | some t => [Effect.destroyTexture t]
        | none => []
      let r := applyFrees (removeTex c id) rest
      (r.1, de ++ r.2)

/-- One whole texture delta as `Painter::draw` applies it: the `set` loop
followed by the `free` loop. -/
def applyDeltaCache (c : List (TexId × Handle)) (fresh : ℕ) (d : TexturesDelta) :
    List (TexId × Handle) × ℕ × List Effect :=
  let rs := applySets c fresh d.set
  let rf := applyFrees rs.1 d.free
  (rf.1, rs.2.1, rs.2.2 ++ rf.2)

/-! ### The render loop -/

/-- `f32 as i32`: truncation toward zero. -/
def truncQ (q : ℚ) : ℤ :=
  if q < 0 then -(⌊-q⌋) else ⌊q⌋

/-- The vertex conversion inside the mesh arm (color channels divided by
255, position and UV copied). -/
def sdlVertexOf (v : Vertex) : SDLVertex :=
  { px := v.pos.x, py := v.pos.y,
    cr := (v.color.r : ℚ) / 255, cg := (v.color.g : ℚ) / 255,
    cb := (v.color.b : ℚ) / 255, ca := (v.color.a : ℚ) / 255,
    u := v.uv.x, v := v.uv.y }

/-- The `for ClippedPrimitive { .. } in &primitives` loop.  Returns the
native calls and whether the loop aborted (`unimplemented!()` on a
callback primitive, which in Rust panics and skips the rest). -/
def renderPrimitives (cache : List (TexId × Handle)) :
    List ClippedPrimitive → List Effect × Bool
  | [] => ([], false)
  | cp :: rest =>
      let clip : Effect := Effect.setRenderClipRect
        (truncQ cp.clip_rect.min.x) (truncQ cp.clip_rect.min.y)
        (truncQ (cp.clip_rect.max.x - cp.clip_rect.min.x))
        (truncQ (cp.clip_rect.max.y - cp.clip_rect.min.y))
      match cp.primitive with
      | Primitive.mesh m =>
          let verts := m.vertices.map sdlVertexOf
          let idxs := m.indices.map (fun i => (i : ℤ))
          let t := (lookupTex cache m.texture_id).getD 0
          let r := renderPrimitives cache rest
          (clip :: Effect.renderGeometry t verts idxs :: r.1, r.2)
      | Primitive.callback => ([clip, Effect.unimplementedCallback], true)

/-- `Painter::draw`.  `fresh` is the next handle `SDL_CreateTexture` hands
out; `scale` is the renderer scale `SDL_GetRenderScale` reads.  Returns the
updated painter, the updated fresh counter, and the native calls made. -/
def Painter.draw (p : Painter) (fresh : ℕ) (scale : ℚ × ℚ) :
    Painter × ℕ × List Effect :=
  match p.draw_info with
  | none => (p, fresh, [])
  | some di =>
      let r := applyDeltaCache p.sdl_textures fresh di.textures
      let rp := renderPrimitives r.1 di.primitives
      let post : List Effect :=
        if rp.2 then [] else [Effect.setRenderScale scale.1 scale.2]
      ({ p with draw_info := none, sdl_textures := r.1 },
       r.2.1,
       Effect.getRenderScale :: Effect.setRenderScale 1 1 ::
         (r.2.2 ++ rp.1 ++ post))

/-! ### end_pass -/

inductive OutputCommand
  | copyText (s : String)
  | otherCommand

structure PlatformOutput where
  commands : List OutputCommand
  cursor_icon : CursorIcon

/-- Opaque shape emitted by egui (only passed through to tessellation). -/
abbrev Shape := ℕ

/-- `egui::FullOutput` as consumed by `Painter::end_pass`. -/
structure FullOutput where
  platform_output : PlatformOutput
  shapes : List Shape
  textures_delta : TexturesDelta

/-- egui context queries used by `end_pass`: the current pixels-per-point
and the (opaque) tessellation. -/
structure EguiCtx where
  pixels_per_point : ℚ
  tessellate : List Shape → ℚ → List ClippedPrimitive

/-- The `match output.platform_output.cursor_icon` table in `end_pass`. -/
def cursorIconToSystemCursor : CursorIcon → SystemCursor
  | CursorIcon.Crosshair => SystemCursor.CROSSHAIR
  | CursorIcon.Default => SystemCursor.DEFAULT
  | CursorIcon.Grab => SystemCursor.POINTER
  | CursorIcon.Grabbing => SystemCursor.MOVE
  | CursorIcon.Move => SystemCursor.MOVE
  | CursorIcon.PointingHand => SystemCursor.POINTER
  | CursorIcon.ResizeHorizontal => SystemCursor.EW_RESIZE
  | CursorIcon.ResizeNeSw => SystemCursor.NESW_RESIZE
  | CursorIcon.ResizeNwSe => SystemCursor.NWSE_RESIZE
  | CursorIcon.ResizeVertical => SystemCursor.NS_RESIZE
  | CursorIcon.Text => SystemCursor.TEXT
  | CursorIcon.NotAllowed => SystemCursor.NOT_ALLOWED
  | CursorIcon.NoDrop => SystemCursor.NOT_ALLOWED
  | CursorIcon.Wait => SystemCursor.WAIT
  | _ => SystemCursor.DEFAULT

/-- `CString::new` fails exactly when the string holds an interior NUL. -/
def hasNulByte (s : String) : Bool :=
  s.data.contains (Char.ofNat 0)

/-- The clipboard-command loop of `end_pass`.  `set_clip` reports whether
`SDL_SetClipboardText` succeeded; on failure the error is printed. -/
def clipboardEffects (cmds : List OutputCommand) (set_clip : String → Bool) :
    List Effect :=
  match cmds with
  | [] => []
  | OutputCommand.copyText s :: rest =>
      (if hasNulByte s then []
       else if set_clip s then [Effect.setClipboardText s]
       else [Effect.setClipboardText s, Effect.logClipboardError]) ++
        clipboardEffects rest set_clip
  | OutputCommand.otherCommand :: rest => clipboardEffects rest set_clip

/-- The cursor block of `end_pass` (guarded by `!self.cursor.ptr.is_null()`):
if the requested look differs from the stored tag, create a new system
cursor; on success the old resource is destroyed (drop on reassignment)
and the new one installed, on failure the error is logged and the old
cursor kept. -/
def cursorUpdate (c : Cursor) (icon : CursorIcon) (create_cursor : SystemCursor → ℕ) :
    Cursor × List Effect :=
  if c.ptr ≠ 0 then
    let new_cursor_look := cursorIconToSystemCursor icon
    if new_cursor_look ≠ c.looks then
      match Cursor.new (create_cursor new_cursor_look) new_cursor_look with
      | some c2 =>
          (c2, [Effect.createCursor new_cursor_look,
                Effect.destroyCursor c.ptr,
                Effect.setCursor c2.ptr])
      | none =>
          (c, [Effect.createCursor new_cursor_look, Effect.logCursorError])
    else (c, [])
  else (c, [])

/-- `Painter::end_pass`.  `out` is what `ctx.end_pass()` returned;
`create_cursor` is the pointer `SDL_CreateSystemCursor` returns for a
requested look (0 = failure).  Returns the updated painter and the native
calls made. -/
def Painter.end_pass (p : Painter) (ec : EguiCtx) (out : FullOutput)
    (create_cursor : SystemCursor → ℕ) (set_clip : String → Bool) :
    Painter × List Effect :=
  let clipEffs := clipboardEffects out.platform_output.commands set_clip
  let cur := cursorUpdate p.cursor out.platform_output.cursor_icon create_cursor
  let prims := ec.tessellate out.shapes ec.pixels_per_point
  ({ p with
       cursor := cur.1,
       draw_info := some { textures := out.textures_delta, primitives := prims } },
   clipEffs ++ cur.2)

/-! ### Sequences of texture deltas applied via draw (for the cache claims) -/

/-- Stage one delta as the pending frame output and render it with `draw`
(no primitives); returns the new painter and fresh-handle counter. -/
def drawOne (p : Painter) (fresh : ℕ) (sc : ℚ × ℚ) (d : TexturesDelta) :
    Painter × ℕ :=
  ((Painter.draw { p with draw_info := some { textures := d, primitives := [] } } fresh sc).1,
   (Painter.draw { p with draw_info := some { textures := d, primitives := [] } } fresh sc).2.1)

/-- Apply a whole sequence of texture deltas, each via `draw`. -/
def drawDeltas : Painter → ℕ → ℚ × ℚ → List TexturesDelta → Painter
  | p, _, _, [] => p
  | p, fresh, sc, d :: ds =>
      drawDeltas (drawOne p fresh sc d).1 (drawOne p fresh sc d).2 sc ds

/-- Spec-side characterisation for C1: `id` was created (appears in the
`set` part) of some delta, and is freed neither by that delta nor by any
later one. -/
def createdNotFreed (ds : List TexturesDelta) (id : TexId) : Prop :=
  ∃ pre d post, ds = pre ++ d :: post ∧
    id ∈ d.set.map Prod.fst ∧ id ∉ d.free ∧ ∀ e ∈ post, id ∉ e.free

/-- The cursor-subsystem calls among a list of effects. -/
def isCursorCall : Effect → Bool
  | Effect.createCursor _ => true
  | Effect.destroyCursor _ => true
  | Effect.setCursor _ => true
  | _ => false

def cursorCalls (l : List Effect) : List Effect :=
  l.filter isCursorCall

/-- `true` only for `createTexture` effects (used to state C6). -/
def Effect.isCreate : Effect → Bool
  | Effect.createTexture _ _ _ => true
  | _ => false

/-! ### Concrete sample states used by the witnesses -/

def sampleSdl : Sdl :=
  { mod_state := ⟨false, false, false, false, false, false⟩, clipboard := none }

/-- Live modifier state with the left control key held. -/
def sampleSdlCtrl : Sdl :=
  { mod_state := ⟨false, false, true, false, false, false⟩, clipboard := none }

def sampleCtx : Ctx :=
  { is_pointer_over_area := false, wants_pointer_input := false,
    wants_keyboard_input := false, screen_rect := ⟨⟨0, 0⟩, ⟨800, 600⟩⟩ }

/-- Context state in which the GUI wants pointer input. -/
def sampleCtxPointer : Ctx :=
  { is_pointer_over_area := false, wants_pointer_input := true,
    wants_keyboard_input := false, screen_rect := ⟨⟨0, 0⟩, ⟨800, 600⟩⟩ }

def sampleEguiCtx : EguiCtx :=
  { pixels_per_point := 1, tessellate := fun _ _ => [] }

def sampleOutput (icon : CursorIcon) : FullOutput :=
  { platform_output := { commands := [], cursor_icon := icon },
    shapes := [], textures_delta := { set := [], free := [] } }

/-- A 1×1 full-texture (no sub-rectangle) image delta. -/
def sampleImd : ImageDelta :=
  { image := { width := 1, height := 1, pixels := [⟨10, 20, 30, 40⟩] }, pos := none }

/-- A painter whose cache maps texture id 3 to native handle 7 and whose
pending frame holds a full-texture update for id 3. -/
def samplePainterUpd : Painter :=
  { initialPainter with
      sdl_textures := [(3, 7)],
      draw_info := some { textures := { set := [(3, sampleImd)], free := [] },
                          primitives := [] } }

/-! ## Lemmas about the texture cache operations -/

theorem lookupTex_removeTex (c : List (TexId × Handle)) (id j : TexId) :
    lookupTex (removeTex c id) j = if j = id then none else lookupTex c j := by
  induction c with
  | nil => simp [removeTex, lookupTex]
  | cons e rest ih =>
      simp only [removeTex, lookupTex]
      by_cases h1 : e.1 = id
      · rw [if_pos h1, ih]
        by_cases h2 : j = id
        · simp [h2]
        · have h3 : ¬ e.1 = j := by rw [h1]; exact fun h => h2 h.symm
          simp [h2, h3]
      · rw [if_neg h1]
        by_cases h2 : e.1 = j
        · have h3 : ¬ j = id := by rw [← h2]; exact h1
          simp [lookupTex, h2, h3]
        · simp [lookupTex, h2, ih]

theorem lookupTex_insertTex (c : List (TexId × Handle)) (id : TexId) (t : Handle)
    (j : TexId) :
    lookupTex (insertTex c id t) j = if j = id then some t else lookupTex c j := by
  have happ : ∀ (l : List (TexId × Handle)),
      lookupTex (l ++ [(id, t)]) j =
        match lookupTex l j with
        | some v => some v
        | none => if id = j then some t else none := by
    intro l
    induction l with
    | nil => simp [lookupTex]
    | cons e rest ih =>
        by_cases h : e.1 = j <;> simp [lookupTex, h, ih]
  rw [insertTex, happ, lookupTex_removeTex]
  by_cases h : j = id
  · simp [h]
  · have h2 : ¬ id = j := fun hh => h hh.symm
    simp [h, h2]
    cases lookupTex c j <;> simp [h2]

theorem mem_keys_removeTex (c : List (TexId × Handle)) (id j : TexId) :
    j ∈ (removeTex c id).map Prod.fst ↔ ¬ j = id ∧ j ∈ c.map Prod.fst := by
  induction c with
  | nil => simp [removeTex]
  | cons e rest ih =>
      simp only [removeTex]
      by_cases h1 : e.1 = id
      · rw [if_pos h1, ih]
        constructor
        · rintro ⟨hne, hmem⟩
          exact ⟨hne, by simp only [List.map_cons, List.mem_cons]; exact Or.inr hmem⟩
        · rintro ⟨hne, hmem⟩
          refine ⟨hne, ?_⟩
          simp only [List.map_cons, List.mem_cons] at hmem
          rcases hmem with h | h
          · exact absurd (h.trans h1) hne
          · exact h
      · rw [if_neg h1]
        simp only [List.map_cons, List.mem_cons, ih]
        constructor
        · rintro (h | ⟨hne, hmem⟩)
          · exact ⟨by rw [h]; exact h1, Or.inl h⟩
          · exact ⟨hne, Or.inr hmem⟩
        · rintro ⟨hne, h | hmem⟩
          · exact Or.inl h
          · exact Or.inr ⟨hne, hmem⟩

theorem keys_nodup_removeTex (c : List (TexId × Handle)) (id : TexId)
    (h : (c.map Prod.fst).Nodup) : ((removeTex c id).map Prod.fst).Nodup := by
  induction c with
  | nil => simp [removeTex]
  | cons e rest ih =>
      simp only [List.map_cons, List.nodup_cons] at h
      simp only [removeTex]
      by_cases h1 : e.1 = id
      · rw [if_pos h1]; exact ih h.2
      · rw [if_neg h1]
        simp only [List.map_cons, List.nodup_cons]
        refine ⟨fun hmem => ?_, ih h.2⟩
        rw [mem_keys_removeTex] at hmem
        exact h.1 hmem.2

theorem keys_nodup_insertTex (c : List (TexId × Handle)) (id : TexId) (t : Handle)
    (h : (c.map Prod.fst).Nodup) : ((insertTex c id t).map Prod.fst).Nodup := by
  rw [insertTex, List.map_append]
  rw [List.nodup_append]
  refine ⟨keys_nodup_removeTex c id h, by simp, ?_⟩
  intro j hj
  rw [mem_keys_removeTex] at hj
  simp
  exact fun hh => hj.1 hh

theorem isSome_applySets (l : List (TexId × ImageDelta)) :
    ∀ (c : List (TexId × Handle)) (fresh : ℕ) (j : TexId),
      (lookupTex (applySets c fresh l).1 j).isSome ↔
        j ∈ l.map Prod.fst ∨ (lookupTex c j).isSome := by
  induction l with
  | nil => intro c fresh j; simp [applySets]
  | cons e rest ih =>
      intro c fresh j
      obtain ⟨id, imd⟩ := e
      cases h : lookupTex c id with
      | some t =>
          rw [applySets, h]
          simp only []
          rw [ih]
          rw [lookupTex_insertTex]
          by_cases hj : j = id
          · simp [hj, h]
          · simp [hj]
      | none =>
          rw [applySets, h]
          simp only []
          rw [ih]
          rw [lookupTex_insertTex]
          by_cases hj : j = id
          · simp [hj]
          · simp [hj]

theorem keys_nodup_applySets (l : List (TexId × ImageDelta)) :
    ∀ (c : List (TexId × Handle)) (fresh : ℕ),
      (c.map Prod.fst).Nodup → ((applySets c fresh l).1.map Prod.fst).Nodup := by
  induction l with
  | nil => intro c fresh h; simpa [applySets] using h
  | cons e rest ih =>
      intro c fresh h
      obtain ⟨id, imd⟩ := e
      cases hl : lookupTex c id with
      | some t =>
          rw [applySets, hl]
          exact ih _ _ (keys_nodup_insertTex c id t h)
      | none =>
          rw [applySets, hl]
          exact ih _ _ (keys_nodup_insertTex c id fresh h)

theorem isSome_applyFrees (l : List TexId) :
    ∀ (c : List (TexId × Handle)) (j : TexId),
      (lookupTex (applyFrees c l).1 j).isSome ↔
        (lookupTex c j).isSome ∧ j ∉ l := by
  induction l with
  | nil => intro c j; simp [applyFrees]
  | cons id rest ih =>
      intro c j
      rw [applyFrees]
      simp only []
      rw [ih, lookupTex_removeTex]
      by_cases hj : j = id
      · simp [hj]
      · simp [hj]

theorem keys_nodup_applyFrees (l : List TexId) :
    ∀ (c : List (TexId × Handle)),
      (c.map Prod.fst).Nodup → ((applyFrees c l).1.map Prod.fst).Nodup := by
  induction l with
  | nil => intro c h; simpa [applyFrees] using h
  | cons id rest ih =>
      intro c h
      rw [applyFrees]
      exact ih _ (keys_nodup_removeTex c id h)

theorem isSome_applyDeltaCache (c : List (TexId × Handle)) (fresh : ℕ)
    (d : TexturesDelta) (j : TexId) :
    (lookupTex (applyDeltaCache c fresh d).1 j).isSome ↔
      (j ∈ d.set.map Prod.fst ∨ (lookupTex c j).isSome) ∧ j ∉ d.free := by
  rw [applyDeltaCache]
  simp only []
  rw [isSome_applyFrees, isSome_applySets]

theorem keys_nodup_applyDeltaCache (c : List (TexId × Handle)) (fresh : ℕ)
    (d : TexturesDelta) (h : (c.map Prod.fst).Nodup) :
    ((applyDeltaCache c fresh d).1.map Prod.fst).Nodup := by
  rw [applyDeltaCache]
  exact keys_nodup_applyFrees _ _ (keys_nodup_applySets _ _ _ h)

theorem drawOne_sdl_textures (p : Painter) (fresh : ℕ) (sc : ℚ × ℚ)
    (d : TexturesDelta) :
    (drawOne p fresh sc d).1.sdl_textures =
      (applyDeltaCache p.sdl_textures fresh d).1 := by
  rfl

theorem createdNotFreed_nil (j : TexId) : ¬ createdNotFreed [] j := by
  rintro ⟨pre, d, post, heq, -⟩
  cases pre <;> simp at heq

theorem createdNotFreed_cons (d : TexturesDelta) (ds : List TexturesDelta)
    (j : TexId) :
    createdNotFreed (d :: ds) j ↔
      (j ∈ d.set.map Prod.fst ∧ j ∉ d.free ∧ ∀ e ∈ ds, j ∉ e.free) ∨
        createdNotFreed ds j := by
  constructor
  · rintro ⟨pre, d1, post, heq, hset, hfree, hpost⟩
    cases pre with
    | nil =>
        simp only [List.nil_append, List.cons.injEq] at heq
        obtain ⟨rfl, rfl⟩ := heq
        exact Or.inl ⟨hset, hfree, hpost⟩
    | cons a pre2 =>
        simp only [List.cons_append, List.cons.injEq] at heq
        obtain ⟨rfl, heq2⟩ := heq
        exact Or.inr ⟨pre2, d1, post, heq2, hset, hfree, hpost⟩
  · rintro (⟨hset, hfree, hpost⟩ | ⟨pre, d1, post, heq, hset, hfree, hpost⟩)
    · exact ⟨[], d, ds, rfl, hset, hfree, hpost⟩
    · exact ⟨d :: pre, d1, post, by rw [heq]; rfl, hset, hfree, hpost⟩

theorem isSome_drawDeltas (ds : List TexturesDelta) :
    ∀ (p : Painter) (fresh : ℕ) (sc : ℚ × ℚ) (j : TexId),
      (lookupTex (drawDeltas p fresh sc ds).sdl_textures j).isSome ↔
        createdNotFreed ds j ∨
          ((lookupTex p.sdl_textures j).isSome ∧ ∀ d ∈ ds, j ∉ d.free) := by
  induction ds with
  | nil =>
      intro p fresh sc j
      simp [drawDeltas, createdNotFreed_nil]
  | cons d ds ih =>
      intro p fresh sc j
      rw [drawDeltas, ih, drawOne_sdl_textures, isSome_applyDeltaCache,
        createdNotFreed_cons]
      simp only [List.mem_cons]
      constructor
      · rintro (h | ⟨⟨hs | hm, hf⟩, hall⟩)
        · exact Or.inl (Or.inr h)
        · exact Or.inl (Or.inl ⟨hs, hf, hall⟩)
        · exact Or.inr ⟨hm, fun e he => by rcases he with rfl | he; exact hf; exact hall e he⟩
      · rintro ((⟨hs, hf, hall⟩ | h) | ⟨hm, hall⟩)
        · exact Or.inr ⟨⟨Or.inl hs, hf⟩, hall⟩
        · exact Or.inl h
        · exact Or.inr ⟨⟨Or.inr hm, hall d (Or.inl rfl)⟩,
            fun e he => hall e (Or.inr he)⟩

theorem keys_nodup_drawDeltas (ds : List TexturesDelta) :
    ∀ (p : Painter) (fresh : ℕ) (sc : ℚ × ℚ),
      (p.sdl_textures.map Prod.fst).Nodup →
        ((drawDeltas p fresh sc ds).sdl_textures.map Prod.fst).Nodup := by
  induction ds with
  | nil => intro p fresh sc h; simpa [drawDeltas] using h
  | cons d ds ih =>
      intro p fresh sc h
      rw [drawDeltas]
      refine ih _ _ _ ?_
      rw [drawOne_sdl_textures]
      exact keys_nodup_applyDeltaCache _ _ _ h

theorem clampQ_mem (v lo hi : ℚ) (h : lo ≤ hi) :
    lo ≤ clampQ v lo hi ∧ clampQ v lo hi ≤ hi := by
  unfold clampQ
  split_ifs with h1 h2
  · exact ⟨le_refl lo, h⟩
  · exact ⟨h, le_refl hi⟩
  · exact ⟨le_of_not_lt h1, le_of_not_lt h2⟩

theorem cursorCalls_clipboardEffects (cmds : List OutputCommand)
    (sclip : String → Bool) :
    cursorCalls (clipboardEffects cmds sclip) = [] := by
  induction cmds with
  | nil => rfl
  | cons c rest ih =>
      cases c with
      | copyText s =>
          rw [clipboardEffects, cursorCalls, List.filter_append]
          rw [cursorCalls] at ih
          rw [ih]
          split_ifs <;> rfl
      | otherCommand => rw [clipboardEffects]; exact ih

theorem cursorCall_not_mem_clipboardEffects (cmds : List OutputCommand)
    (sclip : String → Bool) (e : Effect) (he : isCursorCall e = true) :
    e ∉ clipboardEffects cmds sclip := by
  intro hmem
  have hf : e ∈ cursorCalls (clipboardEffects cmds sclip) :=
    List.mem_filter.mpr ⟨hmem, he⟩
  rw [cursorCalls_clipboardEffects] at hf
  simp at hf

/-! ## The claims -/

/-- C1: after applying any finite sequence of texture deltas via `draw`
starting from a fresh painter, the texture cache holds exactly the
identifiers that were created and not subsequently freed, and its key set
has no duplicates (each identifier maps to exactly one native handle). -/
theorem texture_cache_exactly_live (ds : List TexturesDelta) (fresh : ℕ)
    (sc : ℚ × ℚ) :
    (((drawDeltas initialPainter fresh sc ds).sdl_textures.map Prod.fst).Nodup) ∧
    ∀ id : TexId,
      (∃ h, lookupTex (drawDeltas initialPainter fresh sc ds).sdl_textures id = some h) ↔
        createdNotFreed ds id := by
  constructor
  · exact keys_nodup_drawDeltas ds initialPainter fresh sc
      (by simp [initialPainter, Painter.new])
  · intro id
    rw [← Option.isSome_iff_exists, isSome_drawDeltas]
    have h0 : lookupTex initialPainter.sdl_textures id = none := rfl
    simp [h0]

/-- C3: a second `draw` with no `end_pass` in between is a no-op: the
painter is unchanged and no native calls are issued, because the first
call consumed the pending `DrawInfo`. -/
theorem draw_twice_noop (p : Painter) (fresh : ℕ) (sc sc2 : ℚ × ℚ) :
    Painter.draw (Painter.draw p fresh sc).1 (Painter.draw p fresh sc).2.1 sc2 =
      ((Painter.draw p fresh sc).1, (Painter.draw p fresh sc).2.1, []) := by
  cases h : p.draw_info with
  | none => simp [Painter.draw, h]
  | some di => simp [Painter.draw, h]

/-- C10: `end_pass` never mutates the texture cache, and it overwrites any
pending `DrawInfo`; for two consecutive `end_pass` calls with no `draw`
between them, the cache is untouched and the pending `DrawInfo` is built
from the second frame output only (the first frame delta is discarded). -/
theorem end_pass_discards_previous (p : Painter) (ec : EguiCtx)
    (o1 o2 : FullOutput) (cc : SystemCursor → ℕ) (sclip : String → Bool) :
    (Painter.end_pass p ec o1 cc sclip).1.sdl_textures = p.sdl_textures ∧
    (Painter.end_pass (Painter.end_pass p ec o1 cc sclip).1 ec o2 cc sclip).1.draw_info =
      some { textures := o2.textures_delta,
             primitives := ec.tessellate o2.shapes ec.pixels_per_point } ∧
    (Painter.end_pass (Painter.end_pass p ec o1 cc sclip).1 ec o2 cc sclip).1.sdl_textures =
      p.sdl_textures := by
  exact ⟨rfl, rfl, rfl⟩

/-- C6: a full-texture update for an identifier already in the cache does
not create a new native texture; the update call receives the cached
handle, and the cache still maps the identifier to that same handle. -/
theorem update_keeps_handle (p : Painter) (fresh : ℕ) (sc : ℚ × ℚ)
    (id : TexId) (h : Handle) (imd : ImageDelta)
    (hmem : lookupTex p.sdl_textures id = some h)
    (hpos : imd.pos = none)
    (hdi : p.draw_info = some { textures := { set := [(id, imd)], free := [] },
                                primitives := [] }) :
    lookupTex (Painter.draw p fresh sc).1.sdl_textures id = some h ∧
    (∀ e ∈ (Painter.draw p fresh sc).2.2, e.isCreate = false) ∧
    Effect.updateTexture h none (bytesOf imd.image) (imd.image.width * 4) ∈
      (Painter.draw p fresh sc).2.2 := by
  rw [Painter.draw, hdi]
  simp only [applyDeltaCache, applySets, applyFrees, hmem, renderPrimitives]
  refine ⟨?_, ?_, ?_⟩
  · rw [lookupTex_insertTex]; simp
  · intro e he
    simp [updateEffect, hpos] at he
    rcases he with rfl | rfl | rfl | rfl <;> rfl
  · simp [updateEffect, hpos]

/-- C2: a pointer-motion event clamps the tracked pointer into
`[screen_rect.min, screen_rect.max - 1]` componentwise, appends exactly one
pointer-moved event carrying the clamped position, and is never handled. -/
theorem motion_clamped (p : Painter) (ctx : Ctx) (sdl : Sdl) (mx my : ℚ)
    (hx : ctx.screen_rect.min.x ≤ ctx.screen_rect.max.x - 1)
    (hy : ctx.screen_rect.min.y ≤ ctx.screen_rect.max.y - 1) :
    ctx.screen_rect.min.x ≤
        (Painter.handle_event p (SDLEvent.mouseMotion mx my) ctx sdl).1.cursor_pos.x ∧
    (Painter.handle_event p (SDLEvent.mouseMotion mx my) ctx sdl).1.cursor_pos.x ≤
        ctx.screen_rect.max.x - 1 ∧
    ctx.screen_rect.min.y ≤
        (Painter.handle_event p (SDLEvent.mouseMotion mx my) ctx sdl).1.cursor_pos.y ∧
    (Painter.handle_event p (SDLEvent.mouseMotion mx my) ctx sdl).1.cursor_pos.y ≤
        ctx.screen_rect.max.y - 1 ∧
    (Painter.handle_event p (SDLEvent.mouseMotion mx my) ctx sdl).1.raw_input.events =
      p.raw_input.events ++
        [Event.pointerMoved
          (Painter.handle_event p (SDLEvent.mouseMotion mx my) ctx sdl).1.cursor_pos] ∧
    (Painter.handle_event p (SDLEvent.mouseMotion mx my) ctx sdl).2.1 = false := by
  have hcpx : (Painter.handle_event p (SDLEvent.mouseMotion mx my) ctx sdl).1.cursor_pos.x =
      clampQ mx ctx.screen_rect.min.x (ctx.screen_rect.max.x - 1) := rfl
  have hcpy : (Painter.handle_event p (SDLEvent.mouseMotion mx my) ctx sdl).1.cursor_pos.y =
      clampQ my ctx.screen_rect.min.y (ctx.screen_rect.max.y - 1) := rfl
  rw [hcpx, hcpy]
  exact ⟨(clampQ_mem mx _ _ hx).1, (clampQ_mem mx _ _ hx).2,
    (clampQ_mem my _ _ hy).1, (clampQ_mem my _ _ hy).2, rfl, rfl⟩

/-- C4: wheel events while the GUI wants pointer input append one Zoom
event with factor `exp(delta_y / 125)` when a control key is held live
(so `delta_y = 125` gives `e^1`) and are handled; without control nothing
is appended but the event is still handled; without pointer interest
nothing happens and the event is unhandled. -/
theorem wheel_zoom (p : Painter) (ctx : Ctx) (sdl : Sdl) (wx wy : ℚ) :
    (ctx.wants_pointer_input = true →
      (sdl.mod_state.lctrl || sdl.mod_state.rctrl) = true →
      ((Painter.handle_event p (SDLEvent.mouseWheel wx wy) ctx sdl).1.raw_input.events =
          p.raw_input.events ++ [Event.zoom (Real.exp ((wy : ℝ) / 125))] ∧
        (Painter.handle_event p (SDLEvent.mouseWheel wx wy) ctx sdl).2.1 = true ∧
        (wy = 125 →
          (Painter.handle_event p (SDLEvent.mouseWheel wx wy) ctx sdl).1.raw_input.events =
            p.raw_input.events ++ [Event.zoom (Real.exp 1)]))) ∧
    (ctx.wants_pointer_input = true →
      (sdl.mod_state.lctrl || sdl.mod_state.rctrl) = false →
      ((Painter.handle_event p (SDLEvent.mouseWheel wx wy) ctx sdl).1.raw_input.events =
          p.raw_input.events ∧
        (Painter.handle_event p (SDLEvent.mouseWheel wx wy) ctx sdl).2.1 = true)) ∧
    (ctx.wants_pointer_input = false →
      Painter.handle_event p (SDLEvent.mouseWheel wx wy) ctx sdl = (p, false, [])) := by
  refine ⟨fun hw hc => ?_, fun hw hc => ?_, fun hw => ?_⟩
  · have hred : Painter.handle_event p (SDLEvent.mouseWheel wx wy) ctx sdl =
        ({ p with raw_input := { p.raw_input with
             events := p.raw_input.events ++ [Event.zoom (Real.exp ((wy : ℝ) / 125))] } },
         true, []) := by
      rw [Painter.handle_event]
      simp [hw, hc]
    refine ⟨by rw [hred], by rw [hred], fun h125 => ?_⟩
    rw [hred]
    subst h125
    norm_num
  · have hred : Painter.handle_event p (SDLEvent.mouseWheel wx wy) ctx sdl =
        (p, true, []) := by
      rw [Painter.handle_event]
      simp [hw, hc]
    exact ⟨by rw [hred], by rw [hred]⟩
  · rw [Painter.handle_event]
    simp [hw]

/-- C7: a key-down whose keycode does not map to a known logical key is not
handled and appends nothing (the painter is returned unchanged). -/
theorem unmapped_key_ignored (p : Painter) (ctx : Ctx) (sdl : Sdl) (k : ℕ)
    (hk : sdl_key_to_egui k = none) :
    Painter.handle_event p (SDLEvent.keyDown k) ctx sdl = (p, false, []) := by
  rw [Painter.handle_event]
  cases hw : ctx.wants_keyboard_input
  · simp
  · simp only [if_true]
    by_cases h0 : k = SDLK_UNKNOWN
    · simp [h0]
    · simp [h0, hk]

/-- C9: `Painter::new` computes pixels-per-point as physical width divided
by itself, so it is 1 for every window with nonzero physical width,
independently of the logical window size. -/
theorem pixels_per_point_self_ratio (ss sp : ℤ × ℤ) (cp : ℕ) (hpx : sp.1 ≠ 0) :
    (Painter.new ss sp cp).2 = (sp.1 : ℚ) / (sp.1 : ℚ) ∧
    (Painter.new ss sp cp).2 = 1 ∧
    ∀ ss2 : ℤ × ℤ, (Painter.new ss2 sp cp).2 = (Painter.new ss sp cp).2 := by
  refine ⟨rfl, ?_, fun _ => rfl⟩
  show (sp.1 : ℚ) / (sp.1 : ℚ) = 1
  exact div_self (Int.cast_ne_zero.mpr hpx)


theorem end_pass_cursor (p : Painter) (ec : EguiCtx) (out : FullOutput)
    (cc : SystemCursor → ℕ) (sclip : String → Bool) :
    (Painter.end_pass p ec out cc sclip).1.cursor =
      (cursorUpdate p.cursor out.platform_output.cursor_icon cc).1 := rfl

theorem end_pass_effects (p : Painter) (ec : EguiCtx) (out : FullOutput)
    (cc : SystemCursor → ℕ) (sclip : String → Bool) :
    (Painter.end_pass p ec out cc sclip).2 =
      clipboardEffects out.platform_output.commands sclip ++
        (cursorUpdate p.cursor out.platform_output.cursor_icon cc).2 := rfl

theorem cursorUpdate_same (c : Cursor) (icon : CursorIcon) (cc : SystemCursor → ℕ)
    (h : cursorIconToSystemCursor icon = c.looks) :
    cursorUpdate c icon cc = (c, []) := by
  rw [cursorUpdate]
  by_cases hp : c.ptr ≠ 0 <;> simp [hp, h]

theorem cursorUpdate_changed_ok (c : Cursor) (icon : CursorIcon)
    (cc : SystemCursor → ℕ)
    (hp : c.ptr ≠ 0)
    (hne : cursorIconToSystemCursor icon ≠ c.looks)
    (hcc : cc (cursorIconToSystemCursor icon) ≠ 0) :
    cursorUpdate c icon cc =
      (⟨cc (cursorIconToSystemCursor icon), cursorIconToSystemCursor icon⟩,
        [Effect.createCursor (cursorIconToSystemCursor icon),
         Effect.destroyCursor c.ptr,
         Effect.setCursor (cc (cursorIconToSystemCursor icon))]) := by
  rw [cursorUpdate]
  simp [hp, hne, Cursor.new, hcc]

theorem cursorUpdate_changed_fail (c : Cursor) (icon : CursorIcon)
    (cc : SystemCursor → ℕ)
    (hp : c.ptr ≠ 0)
    (hne : cursorIconToSystemCursor icon ≠ c.looks)
    (hcc : cc (cursorIconToSystemCursor icon) = 0) :
    cursorUpdate c icon cc =
      (c, [Effect.createCursor (cursorIconToSystemCursor icon),
           Effect.logCursorError]) := by
  rw [cursorUpdate]
  simp [hp, hne, Cursor.new, hcc]

/-- C5: the cursor is recreated exactly when the requested appearance maps
to a system cursor different from the stored tag; an immediately repeated
request for the same appearance performs no native cursor calls the second
time. -/
theorem cursor_recreate_iff_changed (p : Painter) (ec : EguiCtx)
    (o1 o2 : FullOutput) (cc : SystemCursor → ℕ) (sclip : String → Bool)
    (hicon : o2.platform_output.cursor_icon = o1.platform_output.cursor_icon)
    (hptr : p.cursor.ptr ≠ 0)
    (hcc : cc (cursorIconToSystemCursor o1.platform_output.cursor_icon) ≠ 0) :
    (cursorCalls (Painter.end_pass p ec o1 cc sclip).2 ≠ [] ↔
      cursorIconToSystemCursor o1.platform_output.cursor_icon ≠ p.cursor.looks) ∧
    cursorCalls
      (Painter.end_pass (Painter.end_pass p ec o1 cc sclip).1 ec o2 cc sclip).2 =
        [] := by
  have hdist : ∀ (a b : List Effect), cursorCalls (a ++ b) =
      cursorCalls a ++ cursorCalls b := fun a b => by
    simp [cursorCalls, List.filter_append]
  by_cases heq : cursorIconToSystemCursor o1.platform_output.cursor_icon = p.cursor.looks
  · have h1 := cursorUpdate_same p.cursor o1.platform_output.cursor_icon cc heq
    constructor
    · rw [end_pass_effects, hdist, cursorCalls_clipboardEffects, h1]
      simp [cursorCalls, heq]
    · rw [end_pass_effects, hdist, cursorCalls_clipboardEffects, end_pass_cursor,
        hicon, h1]
      rw [cursorUpdate_same p.cursor o1.platform_output.cursor_icon cc heq]
      rfl
  · have h1 := cursorUpdate_changed_ok p.cursor o1.platform_output.cursor_icon cc
      hptr heq hcc
    constructor
    · rw [end_pass_effects, hdist, cursorCalls_clipboardEffects, h1]
      simp [cursorCalls, isCursorCall, heq]
    · rw [end_pass_effects, hdist, cursorCalls_clipboardEffects, end_pass_cursor,
        hicon, h1]
      rw [cursorUpdate_same _ o1.platform_output.cursor_icon cc rfl]
      rfl

/-- C8: if creating the native cursor for a changed appearance fails, the
failure is logged, no cursor is destroyed or installed, and the stored
cursor resource and tag are unchanged. -/
theorem cursor_failure_keeps_old (p : Painter) (ec : EguiCtx) (out : FullOutput)
    (cc : SystemCursor → ℕ) (sclip : String → Bool)
    (hptr : p.cursor.ptr ≠ 0)
    (hne : cursorIconToSystemCursor out.platform_output.cursor_icon ≠ p.cursor.looks)
    (hcc : cc (cursorIconToSystemCursor out.platform_output.cursor_icon) = 0) :
    (Painter.end_pass p ec out cc sclip).1.cursor = p.cursor ∧
    Effect.logCursorError ∈ (Painter.end_pass p ec out cc sclip).2 ∧
    ∀ q : ℕ, Effect.destroyCursor q ∉ (Painter.end_pass p ec out cc sclip).2 ∧
      Effect.setCursor q ∉ (Painter.end_pass p ec out cc sclip).2 := by
  have h1 := cursorUpdate_changed_fail p.cursor out.platform_output.cursor_icon cc
    hptr hne hcc
  refine ⟨?_, ?_, ?_⟩
  · rw [end_pass_cursor, h1]
  · rw [end_pass_effects, h1]
    simp
  · intro q
    rw [end_pass_effects, h1]
    constructor
    · intro hmem
      rcases List.mem_append.mp hmem with hmem | hmem
      · exact cursorCall_not_mem_clipboardEffects _ _ (Effect.destroyCursor q) rfl hmem
      · simp at hmem
    · intro hmem
      rcases List.mem_append.mp hmem with hmem | hmem
      · exact cursorCall_not_mem_clipboardEffects _ _ (Effect.setCursor q) rfl hmem
      · simp at hmem


/-- Witness for C2 at a concrete out-of-bounds motion event. -/
theorem motion_clamped_witness :
    sampleCtx.screen_rect.min.x ≤ sampleCtx.screen_rect.max.x - 1 ∧
    sampleCtx.screen_rect.min.y ≤ sampleCtx.screen_rect.max.y - 1 ∧
    (sampleCtx.screen_rect.min.x ≤
        (Painter.handle_event initialPainter (SDLEvent.mouseMotion 5000 (-3))
          sampleCtx sampleSdl).1.cursor_pos.x ∧
      (Painter.handle_event initialPainter (SDLEvent.mouseMotion 5000 (-3))
          sampleCtx sampleSdl).1.cursor_pos.x ≤ sampleCtx.screen_rect.max.x - 1 ∧
      sampleCtx.screen_rect.min.y ≤
        (Painter.handle_event initialPainter (SDLEvent.mouseMotion 5000 (-3))
          sampleCtx sampleSdl).1.cursor_pos.y ∧
      (Painter.handle_event initialPainter (SDLEvent.mouseMotion 5000 (-3))
          sampleCtx sampleSdl).1.cursor_pos.y ≤ sampleCtx.screen_rect.max.y - 1 ∧
      (Painter.handle_event initialPainter (SDLEvent.mouseMotion 5000 (-3))
          sampleCtx sampleSdl).1.raw_input.events =
        initialPainter.raw_input.events ++
          [Event.pointerMoved
            (Painter.handle_event initialPainter (SDLEvent.mouseMotion 5000 (-3))
              sampleCtx sampleSdl).1.cursor_pos] ∧
      (Painter.handle_event initialPainter (SDLEvent.mouseMotion 5000 (-3))
          sampleCtx sampleSdl).2.1 = false) :=
  ⟨by norm_num [sampleCtx], by norm_num [sampleCtx],
    motion_clamped initialPainter sampleCtx sampleSdl 5000 (-3)
      (by norm_num [sampleCtx]) (by norm_num [sampleCtx])⟩

/-- Witness for C4: control held, `delta_y = 125` produces a Zoom event
with factor `e^1`. -/
theorem wheel_zoom_witness :
    sampleCtxPointer.wants_pointer_input = true ∧
    (sampleSdlCtrl.mod_state.lctrl || sampleSdlCtrl.mod_state.rctrl) = true ∧
    (Painter.handle_event initialPainter (SDLEvent.mouseWheel 0 125)
        sampleCtxPointer sampleSdlCtrl).1.raw_input.events =
      initialPainter.raw_input.events ++ [Event.zoom (Real.exp 1)] :=
  ⟨rfl, rfl,
    ((wheel_zoom initialPainter sampleCtxPointer sampleSdlCtrl 0 125).1 rfl rfl).2.2 rfl⟩

/-- Witness for C5 at a concrete cursor-appearance change (Text, twice). -/
theorem cursor_recreate_iff_changed_witness :
    (sampleOutput CursorIcon.Text).platform_output.cursor_icon =
      (sampleOutput CursorIcon.Text).platform_output.cursor_icon ∧
    initialPainter.cursor.ptr ≠ 0 ∧
    (fun _ : SystemCursor => 2)
        (cursorIconToSystemCursor (sampleOutput CursorIcon.Text).platform_output.cursor_icon) ≠ 0 ∧
    ((cursorCalls (Painter.end_pass initialPainter sampleEguiCtx
          (sampleOutput CursorIcon.Text) (fun _ => 2) (fun _ => true)).2 ≠ [] ↔
        cursorIconToSystemCursor
            (sampleOutput CursorIcon.Text).platform_output.cursor_icon ≠
          initialPainter.cursor.looks) ∧
      cursorCalls (Painter.end_pass
        (Painter.end_pass initialPainter sampleEguiCtx (sampleOutput CursorIcon.Text)
          (fun _ => 2) (fun _ => true)).1 sampleEguiCtx (sampleOutput CursorIcon.Text)
        (fun _ => 2) (fun _ => true)).2 = []) :=
  ⟨rfl, by decide, by decide,
    cursor_recreate_iff_changed initialPainter sampleEguiCtx
      (sampleOutput CursorIcon.Text) (sampleOutput CursorIcon.Text)
      (fun _ => 2) (fun _ => true) rfl (by decide) (by decide)⟩

/-- Witness for C6 at a concrete cached texture and full-image update. -/
theorem update_keeps_handle_witness :
    lookupTex samplePainterUpd.sdl_textures 3 = some 7 ∧
    sampleImd.pos = none ∧
    samplePainterUpd.draw_info =
      some { textures := { set := [(3, sampleImd)], free := [] },
             primitives := [] } ∧
    (lookupTex (Painter.draw samplePainterUpd 9 (1, 1)).1.sdl_textures 3 = some 7 ∧
      (∀ e ∈ (Painter.draw samplePainterUpd 9 (1, 1)).2.2, e.isCreate = false) ∧
      Effect.updateTexture 7 none (bytesOf sampleImd.image) (sampleImd.image.width * 4) ∈
        (Painter.draw samplePainterUpd 9 (1, 1)).2.2) :=
  ⟨rfl, rfl, rfl, update_keeps_handle samplePainterUpd 9 (1, 1) 3 7 sampleImd rfl rfl rfl⟩

/-- Witness for C7 at the unmapped keycode 1. -/
theorem unmapped_key_ignored_witness :
    sdl_key_to_egui 1 = none ∧
    Painter.handle_event initialPainter (SDLEvent.keyDown 1) sampleCtx sampleSdl =
      (initialPainter, false, []) :=
  ⟨rfl, unmapped_key_ignored initialPainter sampleCtx sampleSdl 1 rfl⟩

/-- Witness for C8: a failing cursor creation (creator always returns null). -/
theorem cursor_failure_keeps_old_witness :
    initialPainter.cursor.ptr ≠ 0 ∧
    cursorIconToSystemCursor (sampleOutput CursorIcon.Text).platform_output.cursor_icon ≠
      initialPainter.cursor.looks ∧
    (fun _ : SystemCursor => 0)
        (cursorIconToSystemCursor (sampleOutput CursorIcon.Text).platform_output.cursor_icon) = 0 ∧
    ((Painter.end_pass initialPainter sampleEguiCtx (sampleOutput CursorIcon.Text)
        (fun _ => 0) (fun _ => true)).1.cursor = initialPainter.cursor ∧
      Effect.logCursorError ∈ (Painter.end_pass initialPainter sampleEguiCtx
        (sampleOutput CursorIcon.Text) (fun _ => 0) (fun _ => true)).2 ∧
      ∀ q : ℕ, Effect.destroyCursor q ∉ (Painter.end_pass initialPainter sampleEguiCtx
          (sampleOutput CursorIcon.Text) (fun _ => 0) (fun _ => true)).2 ∧
        Effect.setCursor q ∉ (Painter.end_pass initialPainter sampleEguiCtx
          (sampleOutput CursorIcon.Text) (fun _ => 0) (fun _ => true)).2) :=
  ⟨by decide, by decide, rfl,
    cursor_failure_keeps_old initialPainter sampleEguiCtx (sampleOutput CursorIcon.Text)
      (fun _ => 0) (fun _ => true) (by decide) (by decide) rfl⟩

/-- Witness for C9 at an 800-pixel-wide window with a 640-unit logical width. -/
theorem pixels_per_point_self_ratio_witness :
    ((800 : ℤ), (600 : ℤ)).1 ≠ 0 ∧
    ((Painter.new (640, 480) (800, 600) 1).2 =
        (((800 : ℤ), (600 : ℤ)).1 : ℚ) / (((800 : ℤ), (600 : ℤ)).1 : ℚ) ∧
      (Painter.new (640, 480) (800, 600) 1).2 = 1 ∧
      ∀ ss2 : ℤ × ℤ, (Painter.new ss2 (800, 600) 1).2 =
        (Painter.new (640, 480) (800, 600) 1).2) :=
  ⟨by decide, pixels_per_point_self_ratio (640, 480) (800, 600) 1 (by decide)⟩

end EguiSdl
